import Mathlib

/-!
Verification of the task-tracker's store layer (`database.py`), lifecycle
controller (`views.py` button callbacks) and reconciliation procedure
(`taskBot.py`, `resync_tasks_cmd`) against their natural-language
specification.

The SQLite `tasks` table is embedded as a `List Task` (rows in insertion
order).  Each SQL statement of `database.py` becomes a pure function on that
list returning the same `bool` the Python function returns, paired with the
updated table.  The `AUTOINCREMENT` id counter is passed explicitly where
needed.  The `timestamp DATETIME` column is omitted: it is only read by the
presentation layer (embed rendering) and plays no role in any property
considered here.  Storage failures (`sqlite3.Error` other than
`IntegrityError`) are outside the model: every function models the
no-medium-failure executions.
-/

namespace TaskBot

/-- A row of the `tasks` table (`database.py`, `initialize_database`).
`status` is a `TEXT` column with `CHECK(status IN ('open', 'in_progress'))`;
`open_message_id` and `inprogress_message_id` each carry their own
column-level `UNIQUE` constraint. -/
structure Task where
  task_id : Nat
  guild_id : Nat
  description : String
  status : String
  creator_id : Nat
  assignee_id : Option Nat
  open_message_id : Option Nat
  inprogress_message_id : Option Nat
deriving DecidableEq, Repr

/-- `add_task` (`database.py`): `INSERT INTO tasks (guild_id, description,
status, creator_id) VALUES (?, ?, 'open', ?)`.  Both message-id columns and
`assignee_id` are left NULL.  `seq` is the sqlite `AUTOINCREMENT` counter;
the fresh `task_id` is `seq + 1` and is returned like Python's
`cursor.lastrowid`.  Output: (returned task id, new table, new counter). -/
def add_task (tasks : List Task) (seq : Nat) (guild_id : Nat)
    (description : String) (creator_id : Nat) : Option Nat × List Task × Nat :=
  let task_id := seq + 1
  (some task_id,
   tasks ++ [{ task_id := task_id, guild_id := guild_id,
               description := description, status := "open",
               creator_id := creator_id, assignee_id := none,
               open_message_id := none, inprogress_message_id := none }],
   task_id)

/-- `get_task_by_id` (`database.py`): `SELECT * FROM tasks WHERE task_id = ?`,
`fetchone()`. -/
def get_task_by_id (tasks : List Task) (task_id : Nat) : Option Task :=
  tasks.find? (fun t => t.task_id == task_id)

/-- `get_tasks_by_status` (`database.py`): `SELECT * FROM tasks WHERE
guild_id = ? AND status = ?`, `fetchall()` (table order). -/
def get_tasks_by_status (tasks : List Task) (guild_id : Nat)
    (status : String) : List Task :=
  tasks.filter (fun t => t.guild_id == guild_id && t.status == status)

/-- The condition under which the `UPDATE` of `update_task_message_id`
raises `sqlite3.IntegrityError`: the statement actually rewrites a row (the
target `task_id` exists) to a non-NULL value already present in the *same*
column (each reference column has its own `UNIQUE` index; NULLs never
conflict) of a different row. -/
def ref_conflict (tasks : List Task) (task_id : Nat)
    (message_type : String) (message_id : Option Nat) : Bool :=
  match message_id with
  | some m =>
      (tasks.any (fun t => t.task_id == task_id)) &&
      (tasks.any (fun u => !(u.task_id == task_id) &&
        (if message_type = "open"
         then u.open_message_id == some m
         else u.inprogress_message_id == some m)))
  | none => false

/-- `update_task_message_id` (`database.py`): rejects an invalid
`message_type` with `False`, then runs `UPDATE tasks SET {column} = ?
WHERE task_id = ?`.  On `IntegrityError` (see `ref_conflict`) it rolls
back and returns `False`; otherwise it commits and returns `True` without
inspecting `cursor.rowcount`. -/
def update_task_message_id (tasks : List Task) (task_id : Nat)
    (message_type : String) (message_id : Option Nat) : Bool × List Task :=
  if message_type = "open" ∨ message_type = "inprogress" then
    if ref_conflict tasks task_id message_type message_id then (false, tasks)
    else
      (true, tasks.map (fun t =>
        if t.task_id == task_id then
          (if message_type = "open"
           then { t with open_message_id := message_id }
           else { t with inprogress_message_id := message_id })
        else t))
  else (false, tasks)

/-- `claim_task` (`database.py`): `UPDATE tasks SET status = 'in_progress',
assignee_id = ? WHERE task_id = ? AND status = 'open'`; returns
`rowcount > 0`. -/
def claim_task (tasks : List Task) (task_id : Nat) (assignee_id : Nat) :
    Bool × List Task :=
  let updated := tasks.map (fun t =>
    if t.task_id == task_id && t.status == "open" then
      { t with status := "in_progress", assignee_id := some assignee_id }
    else t)
  let updated_rows := tasks.countP (fun t => t.task_id == task_id && t.status == "open")
  (decide (updated_rows > 0), updated)

/-- `complete_task_in_db` (`database.py`): `DELETE FROM tasks WHERE
task_id = ? AND status = 'in_progress'`; returns `rowcount > 0`. -/
def complete_task_in_db (tasks : List Task) (task_id : Nat) :
    Bool × List Task :=
  let deleted_rows := tasks.countP (fun t => t.task_id == task_id && t.status == "in_progress")
  (decide (deleted_rows > 0),
   tasks.filter (fun t => !(t.task_id == task_id && t.status == "in_progress")))

/-- The `tasks` table's primary-key constraint: `task_id` values are
pairwise distinct. -/
def IdsNodup (tasks : List Task) : Prop := (tasks.map Task.task_id).Nodup

instance : DecidablePred IdsNodup := fun tasks =>
  inferInstanceAs (Decidable ((tasks.map Task.task_id).Nodup))

/-- Two rows of a primary-keyed table that agree on `task_id` are the same
row. -/
theorem eq_of_mem_of_id_eq {tasks : List Task} (h : IdsNodup tasks)
    {t u : Task} (ht : t ∈ tasks) (hu : u ∈ tasks)
    (hid : t.task_id = u.task_id) : t = u := by
  unfold IdsNodup at h
  exact List.inj_on_of_nodup_map h ht hu hid

/-- C1: `claim_task` succeeds (returns `true`) exactly when a task with the
given id currently has status `'open'`; on success it atomically sets
`status = 'in_progress'` and records the assignee on that task (all other
rows untouched); if the precondition fails (task already in progress or
nonexistent) it returns `false` — a value, not an error — and leaves the
table unchanged. -/
theorem claim_task_cas (tasks : List Task) (tid a : Nat)
    (hids : IdsNodup tasks) :
    ((claim_task tasks tid a).1 = true ↔
        ∃ t ∈ tasks, t.task_id = tid ∧ t.status = "open") ∧
    ((claim_task tasks tid a).1 = false → (claim_task tasks tid a).2 = tasks) ∧
    ((claim_task tasks tid a).1 = true →
        (∀ u ∈ (claim_task tasks tid a).2, u.task_id = tid →
            u.status = "in_progress" ∧ u.assignee_id = some a) ∧
        (∀ u ∈ (claim_task tasks tid a).2, u.task_id ≠ tid → u ∈ tasks)) := by
  refine ⟨?_, ?_, ?_⟩
  · simp only [claim_task, decide_eq_true_iff, List.countP_pos_iff,
      Bool.and_eq_true, beq_iff_eq]
  · intro hfalse
    simp only [claim_task, decide_eq_false_iff_not, Nat.not_lt, Nat.le_zero,
      List.countP_eq_zero] at hfalse
    simp only [claim_task]
    refine (List.map_congr_left ?_).trans (List.map_id tasks)
    intro t ht
    rw [if_neg (by simpa using hfalse t ht)]
    rfl
  · intro htrue
    simp only [claim_task, decide_eq_true_iff, List.countP_pos_iff,
      Bool.and_eq_true, beq_iff_eq] at htrue
    obtain ⟨w, hw, hwid, hwst⟩ := htrue
    constructor
    · intro u hu hid
      simp only [claim_task, List.mem_map] at hu
      obtain ⟨t, ht, rfl⟩ := hu
      by_cases hp : (t.task_id == tid && t.status == "open") = true
      · rw [if_pos hp]
        exact ⟨rfl, rfl⟩
      · rw [if_neg hp] at hid ⊢
        have htw : t = w :=
          eq_of_mem_of_id_eq hids ht hw (hid.trans hwid.symm)
        exact absurd (by rw [htw]; simp [hwid, hwst]) hp
    · intro u hu hne
      simp only [claim_task, List.mem_map] at hu
      obtain ⟨t, ht, rfl⟩ := hu
      by_cases hp : (t.task_id == tid && t.status == "open") = true
      · rw [if_pos hp] at hne
        simp only [Bool.and_eq_true, beq_iff_eq] at hp
        exact absurd hp.1 hne
      · rw [if_neg hp]
        exact ht

/-- A sample open task used to instantiate theorems with hypotheses. -/
def sampleOpen : Task :=
  { task_id := 1, guild_id := 1, description := "fix login bug",
    status := "open", creator_id := 2, assignee_id := none,
    open_message_id := some 10, inprogress_message_id := none }

/-- A sample in-progress task used to instantiate theorems with
hypotheses. -/
def sampleInProgress : Task :=
  { task_id := 2, guild_id := 1, description := "write docs",
    status := "in_progress", creator_id := 2, assignee_id := some 7,
    open_message_id := none, inprogress_message_id := some 20 }

/-- Witness for C1: on the concrete one-row table holding open task 1,
user 7's claim succeeds. -/
theorem claim_task_cas_witness :
    IdsNodup [sampleOpen] ∧ (claim_task [sampleOpen] 1 7).1 = true :=
  ⟨by decide,
   ((claim_task_cas [sampleOpen] 1 7 (by decide)).1).mpr
     ⟨sampleOpen, by decide, by decide, by decide⟩⟩

/-- C4: `complete_task_in_db` removes the task's row exactly when a task
with the given id currently has status `'in_progress'`; invoked on a task
that is absent or not in `'in_progress'` status it returns `false` and
leaves the table completely unchanged; on success the table is the old one
minus precisely that row. -/
theorem complete_task_in_db_cas (tasks : List Task) (tid : Nat)
    (hids : IdsNodup tasks) :
    ((complete_task_in_db tasks tid).1 = true ↔
        ∃ t ∈ tasks, t.task_id = tid ∧ t.status = "in_progress") ∧
    ((complete_task_in_db tasks tid).1 = false →
        (complete_task_in_db tasks tid).2 = tasks) ∧
    ((complete_task_in_db tasks tid).1 = true →
        ∀ u, u ∈ (complete_task_in_db tasks tid).2 ↔
          u ∈ tasks ∧ u.task_id ≠ tid) := by
  refine ⟨?_, ?_, ?_⟩
  · simp only [complete_task_in_db, decide_eq_true_iff, List.countP_pos_iff,
      Bool.and_eq_true, beq_iff_eq]
  · intro hfalse
    simp only [complete_task_in_db, decide_eq_false_iff_not, Nat.not_lt,
      Nat.le_zero, List.countP_eq_zero] at hfalse
    simp only [complete_task_in_db]
    rw [List.filter_eq_self]
    intro t ht
    cases hb : (t.task_id == tid && t.status == "in_progress") with
    | false => simp [hb]
    | true => exact absurd hb (hfalse t ht)
  · intro htrue
    simp only [complete_task_in_db, decide_eq_true_iff, List.countP_pos_iff,
      Bool.and_eq_true, beq_iff_eq] at htrue
    obtain ⟨w, hw, hwid, hwst⟩ := htrue
    intro u
    simp only [complete_task_in_db, List.mem_filter]
    constructor
    · rintro ⟨hu, hcond⟩
      refine ⟨hu, fun hid => ?_⟩
      have huw : u = w := eq_of_mem_of_id_eq hids hu hw (hid.trans hwid.symm)
      rw [huw] at hcond
      simp [hwid, hwst] at hcond
    · rintro ⟨hu, hne⟩
      refine ⟨hu, ?_⟩
      simp [hne]

/-- Witness for C4: completing in-progress task 2 in a concrete two-row
table succeeds. -/
theorem complete_task_in_db_cas_witness :
    IdsNodup [sampleOpen, sampleInProgress] ∧
    (complete_task_in_db [sampleOpen, sampleInProgress] 2).1 = true :=
  ⟨by decide,
   ((complete_task_in_db_cas [sampleOpen, sampleInProgress] 2 (by decide)).1).mpr
     ⟨sampleInProgress, by decide, by decide, by decide⟩⟩

/-- C10: on a `task_id` matching no row, `update_task_message_id` still
returns `true` for any valid slot — it commits the zero-row `UPDATE` and
never inspects `cursor.rowcount` — and the table is unchanged, so the
caller gets exactly the same result as for a successful real update. -/
theorem update_task_message_id_missing_reports_success
    (tasks : List Task) (tid : Nat) (message_type : String)
    (message_id : Option Nat)
    (hvalid : message_type = "open" ∨ message_type = "inprogress")
    (hmissing : ∀ t ∈ tasks, t.task_id ≠ tid) :
    update_task_message_id tasks tid message_type message_id = (true, tasks) := by
  have hany : tasks.any (fun t => t.task_id == tid) = false := by
    simp only [List.any_eq_false, beq_iff_eq]
    exact hmissing
  have hconf : ref_conflict tasks tid message_type message_id = false := by
    cases message_id with
    | none => rfl
    | some m => simp only [ref_conflict, hany, Bool.false_and]
  have hmap : (tasks.map (fun t =>
      if t.task_id == tid then
        (if message_type = "open"
         then { t with open_message_id := message_id }
         else { t with inprogress_message_id := message_id })
      else t)) = tasks := by
    refine (List.map_congr_left ?_).trans (List.map_id tasks)
    intro t ht
    rw [if_neg (by simpa using hmissing t ht)]
    rfl
  unfold update_task_message_id
  rw [if_pos hvalid, hconf, if_neg (by simp), hmap]

/-- Witness for C10: updating task 99 (absent from the concrete table)
reports success and changes nothing. -/
theorem update_task_message_id_missing_witness :
    update_task_message_id [sampleOpen, sampleInProgress] 99 "open" (some 55) =
      (true, [sampleOpen, sampleInProgress]) :=
  update_task_message_id_missing_reports_success
    [sampleOpen, sampleInProgress] 99 "open" (some 55)
    (Or.inl rfl) (by decide)

/-- Helper: the boolean result of `claim_task` is `true` exactly when some
row has the requested id and status `'open'`. -/
theorem claim_task_fst_iff (tasks : List Task) (tid a : Nat) :
    (claim_task tasks tid a).1 = true ↔
      ∃ t ∈ tasks, t.task_id = tid ∧ t.status = "open" := by
  simp only [claim_task, decide_eq_true_iff, List.countP_pos_iff,
    Bool.and_eq_true, beq_iff_eq]

/-- Helper: when no row has the requested id with status `'open'`, the
`UPDATE` of `claim_task` matches nothing and the table is unchanged. -/
theorem claim_task_snd_of_no_open (tasks : List Task) (tid a : Nat)
    (h : ∀ t ∈ tasks, t.task_id = tid → t.status ≠ "open") :
    (claim_task tasks tid a).2 = tasks := by
  simp only [claim_task]
  refine (List.map_congr_left ?_).trans (List.map_id tasks)
  intro t ht
  rw [if_neg]
  · rfl
  · simp only [Bool.and_eq_true, beq_iff_eq, not_and]
    exact h t ht

/-- C2: with the two racing `claim` calls serialized by the store (every
`UPDATE` is atomic in SQLite), for any arrival order on an open task
exactly one call returns success and the later one returns `false`;
afterwards the task's row is `'in_progress'` with exactly the first
claimer recorded as assignee. -/
theorem no_double_claim (tasks : List Task) (tid x y : Nat)
    (hids : IdsNodup tasks)
    (hopen : ∃ t ∈ tasks, t.task_id = tid ∧ t.status = "open") :
    (claim_task tasks tid x).1 = true ∧
    (claim_task (claim_task tasks tid x).2 tid y).1 = false ∧
    (∀ u ∈ (claim_task (claim_task tasks tid x).2 tid y).2,
        u.task_id = tid → u.status = "in_progress" ∧ u.assignee_id = some x) ∧
    (∃ u ∈ (claim_task (claim_task tasks tid x).2 tid y).2,
        u.task_id = tid ∧ u.status = "in_progress" ∧ u.assignee_id = some x) := by
  obtain ⟨w, hw, hwid, hwst⟩ := hopen
  have h1 : (claim_task tasks tid x).1 = true :=
    (claim_task_fst_iff tasks tid x).mpr ⟨w, hw, hwid, hwst⟩
  have hmem1 : ∀ u ∈ (claim_task tasks tid x).2, u.task_id = tid →
      u.status = "in_progress" ∧ u.assignee_id = some x := by
    intro u hu hid
    simp only [claim_task, List.mem_map] at hu
    obtain ⟨t, ht, rfl⟩ := hu
    by_cases hp : (t.task_id == tid && t.status == "open") = true
    · rw [if_pos hp]
      exact ⟨rfl, rfl⟩
    · rw [if_neg hp] at hid ⊢
      have htw : t = w := eq_of_mem_of_id_eq hids ht hw (hid.trans hwid.symm)
      exact absurd (by rw [htw]; simp [hwid, hwst]) hp
  have h2 : (claim_task (claim_task tasks tid x).2 tid y).1 = false := by
    rw [Bool.eq_false_iff]
    intro hc
    obtain ⟨u, hu, huid, hust⟩ := (claim_task_fst_iff _ tid y).mp hc
    have := (hmem1 u hu huid).1
    rw [this] at hust
    exact absurd hust (by decide)
  have hunch : (claim_task (claim_task tasks tid x).2 tid y).2 =
      (claim_task tasks tid x).2 := by
    refine claim_task_snd_of_no_open _ tid y ?_
    intro u hu hid
    rw [(hmem1 u hu hid).1]
    decide
  refine ⟨h1, h2, ?_, ?_⟩
  · rw [hunch]
    exact hmem1
  · rw [hunch]
    have hw1 : ∃ u ∈ (claim_task tasks tid x).2, u.task_id = tid := by
      simp only [claim_task, List.mem_map]
      refine ⟨_, ⟨w, hw, rfl⟩, ?_⟩
      by_cases hp : (w.task_id == tid && w.status == "open") = true
      · rw [if_pos hp]
        exact hwid
      · rw [if_neg hp]
        exact hwid
    obtain ⟨u, hu, huid⟩ := hw1
    exact ⟨u, hu, huid, hmem1 u hu huid⟩

/-- Witness for C2: on the concrete one-task table, user 7's claim wins the
race and user 8's subsequent claim observes `false`. -/
theorem no_double_claim_witness :
    IdsNodup [sampleOpen] ∧
    (claim_task [sampleOpen] 1 7).1 = true ∧
    (claim_task (claim_task [sampleOpen] 1 7).2 1 8).1 = false :=
  have h := no_double_claim [sampleOpen] 1 7 8 (by decide)
    ⟨sampleOpen, by decide, by decide, by decide⟩
  ⟨by decide, h.1, h.2.1⟩

/-- A second sample task with no message references yet. -/
def plainTask2 : Task :=
  { task_id := 2, guild_id := 1, description := "update readme",
    status := "open", creator_id := 3, assignee_id := none,
    open_message_id := none, inprogress_message_id := none }

/-- Per-column uniqueness of a message-reference column: two rows with
different ids never hold the same non-null value in that column.  This is
what the schema's column-level `UNIQUE` constraints actually enforce. -/
def ColumnRefUnique (col : Task → Option Nat) (tasks : List Task) : Prop :=
  ∀ t ∈ tasks, ∀ u ∈ tasks, t.task_id ≠ u.task_id →
    (col t).isSome → col t ≠ col u

instance (col : Task → Option Nat) (tasks : List Task) :
    Decidable (ColumnRefUnique col tasks) := by
  unfold ColumnRefUnique
  infer_instance

/-- Counterexample for C3: task 1 holds message ref 10 in its *open*
column; writing the same ref 10 into task 2's *in-progress* column is
accepted (`update_task_message_id` returns `true`), leaving two distinct
live tasks sharing one message reference across columns — the claimed
store-wide rejection does not happen. -/
theorem set_message_ref_accepts_cross_column_share :
    update_task_message_id [sampleOpen, plainTask2] 2 "inprogress" (some 10) =
      (true,
       [sampleOpen,
        { task_id := 2, guild_id := 1, description := "update readme",
          status := "open", creator_id := 3, assignee_id := none,
          open_message_id := none, inprogress_message_id := some 10 }]) ∧
    sampleOpen.task_id = 1 ∧ sampleOpen.open_message_id = some 10 := by
  decide

/-- Helper: with a valid `message_type` and no integrity conflict, the
update commits and rewrites exactly the target row's chosen column. -/
theorem update_task_message_id_eq_map (tasks : List Task) (tid : Nat)
    (message_type : String) (message_id : Option Nat)
    (hvalid : message_type = "open" ∨ message_type = "inprogress")
    (hnoconf : ref_conflict tasks tid message_type message_id = false) :
    update_task_message_id tasks tid message_type message_id =
      (true, tasks.map (fun t =>
        if t.task_id == tid then
          (if message_type = "open"
           then { t with open_message_id := message_id }
           else { t with inprogress_message_id := message_id })
        else t)) := by
  unfold update_task_message_id
  rw [if_pos hvalid, hnoconf, if_neg (by simp)]

/-- Helper: a row-rewriting map that keeps a reference column pointwise
intact keeps that column's per-column uniqueness. -/
theorem columnRefUnique_map_invariant (tasks : List Task)
    (col : Task → Option Nat) (f : Task → Task)
    (hfid : ∀ t, (f t).task_id = t.task_id)
    (hfcol : ∀ t, col (f t) = col t)
    (huniq : ColumnRefUnique col tasks) :
    ColumnRefUnique col (tasks.map f) := by
  intro v hv v' hv' hne hsome
  obtain ⟨t, ht, rfl⟩ := List.mem_map.mp hv
  obtain ⟨t', ht', rfl⟩ := List.mem_map.mp hv'
  simp only [hfid] at hne
  simp only [hfcol] at hsome ⊢
  exact huniq t ht t' ht' hne hsome

/-- Helper: rewriting one reference column of exactly the rows carrying the
target id, to a value held by no other row, keeps that column's per-column
uniqueness. -/
theorem columnRefUnique_map_update (tasks : List Task) (tid : Nat)
    (mid : Option Nat) (col : Task → Option Nat) (f : Task → Task)
    (hfid : ∀ t, (f t).task_id = t.task_id)
    (hfcol : ∀ t, col (f t) = if t.task_id = tid then mid else col t)
    (hside : (∀ m, mid = some m → ∀ u ∈ tasks, u.task_id ≠ tid → col u ≠ some m) ∨
             (∀ t ∈ tasks, t.task_id ≠ tid))
    (huniq : ColumnRefUnique col tasks) :
    ColumnRefUnique col (tasks.map f) := by
  intro v hv v' hv' hne hsome
  obtain ⟨t, ht, rfl⟩ := List.mem_map.mp hv
  obtain ⟨t', ht', rfl⟩ := List.mem_map.mp hv'
  simp only [hfid] at hne
  simp only [hfcol] at hsome ⊢
  by_cases h1 : t.task_id = tid
  · rw [if_pos h1] at hsome ⊢
    have h2 : ¬ t'.task_id = tid := fun h => hne (h1.trans h.symm)
    rw [if_neg h2]
    obtain ⟨m, hm⟩ := Option.isSome_iff_exists.mp hsome
    rcases hside with hno | hall
    · rw [hm]
      intro hcontra
      exact hno m hm t' ht' h2 hcontra.symm
    · exact absurd h1 (hall t ht)
  · rw [if_neg h1] at hsome ⊢
    by_cases h2 : t'.task_id = tid
    · rw [if_pos h2]
      cases hmid : mid with
      | none =>
          intro h
          rw [h] at hsome
          simp at hsome
      | some m' =>
          rcases hside with hno | hall
          · exact hno m' hmid t ht h1
          · exact absurd h2 (hall t' ht')
    · rw [if_neg h2]
      exact huniq t ht t' ht' hne hsome

/-- C3 (amended): message-reference uniqueness is enforced *per column*
only.  `update_task_message_id` rejects — returning `false` and leaving the
table unchanged — a write of a non-null ref already held in the *same*
column by a different task (given the target row exists), and it preserves
per-column uniqueness of both reference columns; a ref held by another
task in the *other* column is not rejected. -/
theorem set_message_ref_same_column_unique (tasks : List Task) (tid : Nat)
    (message_type : String) (message_id : Option Nat)
    (hvalid : message_type = "open" ∨ message_type = "inprogress") :
    (∀ m, message_id = some m →
      (∃ t ∈ tasks, t.task_id = tid) →
      (∃ u ∈ tasks, u.task_id ≠ tid ∧
        (if message_type = "open"
         then u.open_message_id else u.inprogress_message_id) = some m) →
      update_task_message_id tasks tid message_type message_id = (false, tasks)) ∧
    (ColumnRefUnique Task.open_message_id tasks →
     ColumnRefUnique Task.inprogress_message_id tasks →
     ColumnRefUnique Task.open_message_id
        (update_task_message_id tasks tid message_type message_id).2 ∧
     ColumnRefUnique Task.inprogress_message_id
        (update_task_message_id tasks tid message_type message_id).2) := by
  constructor
  · rintro m rfl ⟨t, ht, htid⟩ ⟨u, hu, huid, hucol⟩
    have hconf : ref_conflict tasks tid message_type (some m) = true := by
      simp only [ref_conflict, Bool.and_eq_true, List.any_eq_true]
      refine ⟨⟨t, ht, by simp [htid]⟩, ⟨u, hu, ?_⟩⟩
      rcases hvalid with hv | hv
      · subst hv
        simp at hucol
        simp [huid, hucol]
      · subst hv
        simp only [if_neg (by decide : ¬("inprogress" = "open"))] at hucol
        simp [huid, hucol]
    unfold update_task_message_id
    rw [if_pos hvalid, hconf, if_pos (by simp)]
  · intro hopen hinp
    by_cases hconf : ref_conflict tasks tid message_type message_id = true
    · have hre : update_task_message_id tasks tid message_type message_id =
          (false, tasks) := by
        unfold update_task_message_id
        rw [if_pos hvalid, hconf, if_pos (by simp)]
      rw [hre]
      exact ⟨hopen, hinp⟩
    · rw [Bool.not_eq_true] at hconf
      rw [update_task_message_id_eq_map tasks tid message_type message_id hvalid hconf]
      -- `ref_conflict = false` means: either no row has the target id, or
      -- no *other* row holds the written value in the written column.
      have hside : ∀ col : Task → Option Nat,
          (∀ u ∈ tasks, (if message_type = "open"
            then u.open_message_id else u.inprogress_message_id) = col u) →
          ((∀ m, message_id = some m →
              ∀ u ∈ tasks, u.task_id ≠ tid → col u ≠ some m) ∨
           (∀ t ∈ tasks, t.task_id ≠ tid)) := by
        intro col hcol
        by_cases hex : ∃ t ∈ tasks, t.task_id = tid
        · left
          rintro m rfl u hu hune heq
          obtain ⟨t, ht, htid⟩ := hex
          have htrue : ref_conflict tasks tid message_type (some m) = true := by
            simp only [ref_conflict, Bool.and_eq_true, List.any_eq_true]
            refine ⟨⟨t, ht, by simp [htid]⟩, ⟨u, hu, ?_⟩⟩
            have hucol : (if message_type = "open"
                then u.open_message_id else u.inprogress_message_id) = some m :=
              (hcol u hu).symm ▸ heq
            rcases hvalid with hv | hv
            · subst hv
              simp at hucol
              simp [hune, hucol]
            · subst hv
              simp only [if_neg (by decide : ¬("inprogress" = "open"))] at hucol
              simp [hune, hucol]
          rw [htrue] at hconf
          exact Bool.noConfusion hconf
        · right
          push_neg at hex
          exact hex
      rcases hvalid with hv | hv
      · subst hv
        constructor
        · refine columnRefUnique_map_update tasks tid message_id
            Task.open_message_id _ ?_ ?_ ?_ hopen
          · intro t
            by_cases h : t.task_id = tid <;> simp [h]
          · intro t
            by_cases h : t.task_id = tid <;> simp [h]
          · exact hside Task.open_message_id (fun u _ => by simp)
        · refine columnRefUnique_map_invariant tasks
            Task.inprogress_message_id _ ?_ ?_ hinp
          · intro t
            by_cases h : t.task_id = tid <;> simp [h]
          · intro t
            by_cases h : t.task_id = tid <;> simp [h]
      · subst hv
        constructor
        · refine columnRefUnique_map_invariant tasks
            Task.open_message_id _ ?_ ?_ hopen
          · intro t
            by_cases h : t.task_id = tid <;> simp [h]
          · intro t
            by_cases h : t.task_id = tid <;> simp [h]
        · refine columnRefUnique_map_update tasks tid message_id
            Task.inprogress_message_id _ ?_ ?_ ?_ hinp
          · intro t
            by_cases h : t.task_id = tid <;> simp [h]
          · intro t
            by_cases h : t.task_id = tid <;> simp [h]
          · exact hside Task.inprogress_message_id (fun u _ => by simp)

/-- Witness for C3 (amended): writing ref 10 — already task 1's open ref —
into task 2's *open* slot is rejected, and per-column uniqueness holds on
the (unchanged) result. -/
theorem set_message_ref_same_column_unique_witness :
    update_task_message_id [sampleOpen, plainTask2] 2 "open" (some 10) =
      (false, [sampleOpen, plainTask2]) ∧
    ColumnRefUnique Task.open_message_id
      (update_task_message_id [sampleOpen, plainTask2] 2 "open" (some 10)).2 ∧
    ColumnRefUnique Task.inprogress_message_id
      (update_task_message_id [sampleOpen, plainTask2] 2 "open" (some 10)).2 :=
  have h := set_message_ref_same_column_unique [sampleOpen, plainTask2] 2
    "open" (some 10) (Or.inl rfl)
  ⟨h.1 10 rfl ⟨plainTask2, by decide, by decide⟩
      ⟨sampleOpen, by decide, by decide, by decide⟩,
   h.2 (by decide) (by decide)⟩

/-- Exactly one of the two message-reference columns is non-null. -/
def ExactlyOneRef (t : Task) : Prop :=
  t.open_message_id.isSome ≠ t.inprogress_message_id.isSome

instance (t : Task) : Decidable (ExactlyOneRef t) := by
  unfold ExactlyOneRef
  infer_instance

/-- Counterexample for C9: immediately after `add_task` the created row has
*both* reference columns NULL (the open message is only posted — and its
ref recorded — afterwards by the command handler), so the exactly-one
invariant does not hold at that point. -/
theorem add_task_creates_row_without_refs :
    add_task [] 0 1 "fix login bug" 2 =
      (some 1,
       [{ task_id := 1, guild_id := 1, description := "fix login bug",
          status := "open", creator_id := 2, assignee_id := none,
          open_message_id := none, inprogress_message_id := none }], 1) ∧
    ¬ ExactlyOneRef
      { task_id := 1, guild_id := 1, description := "fix login bug",
        status := "open", creator_id := 2, assignee_id := none,
        open_message_id := none, inprogress_message_id := none } := by
  decide

/-- Helper: the row-rewriting function of `claim_task` preserves
`task_id`. -/
theorem task_id_claim_map (tid a : Nat) (t : Task) :
    ((if t.task_id == tid && t.status == "open" then
        { t with status := "in_progress", assignee_id := some a }
      else t) : Task).task_id = t.task_id := by
  by_cases h : (t.task_id == tid && t.status == "open") = true
  · rw [if_pos h]
  · rw [if_neg h]

/-- Helper: the row-rewriting function of `update_task_message_id`
preserves `task_id`. -/
theorem task_id_update_map (tid : Nat) (mt : String) (mid : Option Nat)
    (t : Task) :
    ((if t.task_id == tid then
        (if mt = "open" then { t with open_message_id := mid }
         else { t with inprogress_message_id := mid })
      else t) : Task).task_id = t.task_id := by
  by_cases h : (t.task_id == tid) = true
  · rw [if_pos h]
    by_cases h2 : mt = "open"
    · rw [if_pos h2]
    · rw [if_neg h2]
  · rw [if_neg h]

/-- Helper: the row-rewriting function of `claim_task` preserves the
in-progress reference column. -/
theorem inprog_claim_map (tid a : Nat) (t : Task) :
    ((if t.task_id == tid && t.status == "open" then
        { t with status := "in_progress", assignee_id := some a }
      else t) : Task).inprogress_message_id = t.inprogress_message_id := by
  by_cases h : (t.task_id == tid && t.status == "open") = true
  · rw [if_pos h]
  · rw [if_neg h]

/-- C9 (amended): the exactly-one-reference property holds at the steady
states but not at all times: right after `add_task` both columns are NULL;
inside the claim flow (`ClaimButton.callback`: `claim_task`, then record
the in-progress ref, then clear the open ref) there is a transient state
in which the claimed task holds *both* references; once the open ref is
cleared, exactly one reference (the in-progress one) is non-null again. -/
theorem lifecycle_exactly_one_ref_phases
    (tasks : List Task) (tid a m r : Nat) (hids : IdsNodup tasks)
    (t₀ : Task) (ht : t₀ ∈ tasks) (htid : t₀.task_id = tid)
    (hst : t₀.status = "open") (hopen : t₀.open_message_id = some m)
    (hinp : t₀.inprogress_message_id = none)
    (hfresh : ∀ u ∈ tasks, u.inprogress_message_id ≠ some r) :
    (∀ ts seq g d c, (add_task ts seq g d c).2.1 =
        ts ++ [{ task_id := seq + 1, guild_id := g, description := d,
                 status := "open", creator_id := c, assignee_id := none,
                 open_message_id := none, inprogress_message_id := none }] ∧
        ¬ ExactlyOneRef
          { task_id := seq + 1, guild_id := g, description := d,
            status := "open", creator_id := c, assignee_id := none,
            open_message_id := none, inprogress_message_id := none }) ∧
    (∀ u ∈ (update_task_message_id (claim_task tasks tid a).2
              tid "inprogress" (some r)).2,
        u.task_id = tid →
          u.open_message_id = some m ∧ u.inprogress_message_id = some r ∧
          ¬ ExactlyOneRef u) ∧
    (∀ u ∈ (update_task_message_id
              (update_task_message_id (claim_task tasks tid a).2
                tid "inprogress" (some r)).2
              tid "open" none).2,
        u.task_id = tid →
          u.open_message_id = none ∧ u.inprogress_message_id = some r ∧
          ExactlyOneRef u) ∧
    (∃ u ∈ (update_task_message_id
              (update_task_message_id (claim_task tasks tid a).2
                tid "inprogress" (some r)).2
              tid "open" none).2, u.task_id = tid) := by
  -- the claim `UPDATE` is a row-wise map keeping both reference columns
  have hs1 : (claim_task tasks tid a).2 = tasks.map (fun t =>
      if t.task_id == tid && t.status == "open" then
        { t with status := "in_progress", assignee_id := some a }
      else t) := rfl
  -- recording the fresh in-progress ref on the claimed table cannot
  -- conflict: no row holds `r` in the in-progress column
  have hconf1 : ref_conflict (claim_task tasks tid a).2 tid "inprogress"
      (some r) = false := by
    have hany : ((claim_task tasks tid a).2.any (fun u =>
        !(u.task_id == tid) &&
        (if ("inprogress" : String) = "open"
         then u.open_message_id == some r
         else u.inprogress_message_id == some r))) = false := by
      rw [hs1, List.any_map, List.any_eq_false]
      intro t htm
      simp only [Function.comp]
      rw [if_neg (by decide : ¬(("inprogress" : String) = "open"))]
      intro hcontra
      rw [Bool.and_eq_true] at hcontra
      have h2 := hcontra.2
      rw [beq_iff_eq, inprog_claim_map] at h2
      exact hfresh t htm h2
    simp only [ref_conflict, hany, Bool.and_false]
  have hs2 : (update_task_message_id (claim_task tasks tid a).2
      tid "inprogress" (some r)).2 = (claim_task tasks tid a).2.map (fun t =>
        if t.task_id == tid then
          (if ("inprogress" : String) = "open"
           then { t with open_message_id := some r }
           else { t with inprogress_message_id := some r })
        else t) := by
    rw [update_task_message_id_eq_map _ tid "inprogress" (some r)
      (Or.inr rfl) hconf1]
  -- clearing a column (writing NULL) never conflicts
  have hconf2 : ref_conflict (update_task_message_id (claim_task tasks tid a).2
      tid "inprogress" (some r)).2 tid "open" none = false := rfl
  have hs3 : (update_task_message_id
      (update_task_message_id (claim_task tasks tid a).2
        tid "inprogress" (some r)).2 tid "open" none).2 =
      (update_task_message_id (claim_task tasks tid a).2
        tid "inprogress" (some r)).2.map (fun t =>
        if t.task_id == tid then
          (if ("open" : String) = "open"
           then { t with open_message_id := none }
           else { t with inprogress_message_id := none })
        else t) := by
    rw [update_task_message_id_eq_map _ tid "open" none (Or.inl rfl) hconf2]
  have hmid : ∀ u ∈ (update_task_message_id (claim_task tasks tid a).2
      tid "inprogress" (some r)).2, u.task_id = tid →
        u.open_message_id = some m ∧ u.inprogress_message_id = some r ∧
        ¬ ExactlyOneRef u := by
    intro u hu huid
    rw [hs2] at hu
    obtain ⟨v, hv, rfl⟩ := List.mem_map.mp hu
    rw [hs1] at hv
    obtain ⟨t, htm, rfl⟩ := List.mem_map.mp hv
    rw [task_id_update_map, task_id_claim_map] at huid
    have hteq : t = t₀ := eq_of_mem_of_id_eq hids htm ht (huid.trans htid.symm)
    subst hteq
    refine ⟨?_, ?_, ?_⟩ <;>
      simp [htid, hst, hopen, hinp, ExactlyOneRef]
  refine ⟨fun ts seq g d c => ⟨rfl, by simp [ExactlyOneRef]⟩, hmid, ?_, ?_⟩
  · intro u hu huid
    rw [hs3] at hu
    obtain ⟨v, hv, rfl⟩ := List.mem_map.mp hu
    rw [task_id_update_map] at huid
    obtain ⟨hvo, hvi, hx⟩ := hmid v hv huid
    refine ⟨?_, ?_, ?_⟩ <;>
      simp [huid, hvi, ExactlyOneRef]
  · rw [hs3, hs2, hs1]
    refine ⟨_, List.mem_map.mpr ⟨_, List.mem_map.mpr ⟨_,
      List.mem_map.mpr ⟨t₀, ht, rfl⟩, rfl⟩, rfl⟩, ?_⟩
    rw [task_id_update_map, task_id_update_map, task_id_claim_map]
    exact htid

/-- Witness for C9 (amended): on the concrete one-task table, the final
state of the claim flow holds exactly the in-progress reference. -/
theorem lifecycle_exactly_one_ref_phases_witness :
    ({ task_id := 1, guild_id := 1, description := "fix login bug",
       status := "in_progress", creator_id := 2, assignee_id := some 7,
       open_message_id := none, inprogress_message_id := some 30 }
        : Task).open_message_id = none ∧
    ({ task_id := 1, guild_id := 1, description := "fix login bug",
       status := "in_progress", creator_id := 2, assignee_id := some 7,
       open_message_id := none, inprogress_message_id := some 30 }
        : Task).inprogress_message_id = some 30 ∧
    ExactlyOneRef
      { task_id := 1, guild_id := 1, description := "fix login bug",
        status := "in_progress", creator_id := 2, assignee_id := some 7,
        open_message_id := none, inprogress_message_id := some 30 } :=
  (lifecycle_exactly_one_ref_phases [sampleOpen] 1 7 10 30 (by decide)
      sampleOpen (by decide) rfl rfl rfl rfl (by decide)).2.2.1
    { task_id := 1, guild_id := 1, description := "fix login bug",
      status := "in_progress", creator_id := 2, assignee_id := some 7,
      open_message_id := none, inprogress_message_id := some 30 }
    (by decide) (by decide)

/-- Outcome of the one `completed_channel.send(...)` call attempted by
`CompleteButton.callback` (`views.py`). -/
inductive PostRes where
  | ok
  | forbidden
  | httpErr
deriving DecidableEq, Repr

/-- State of the configured completed-log channel as seen by
`CompleteButton.callback`: not configured, configured but
missing/not-a-text-channel, or valid with a given send outcome. -/
inductive CompletedChannelState where
  | notConfigured
  | channelInvalid
  | channelValid (send : PostRes)
deriving DecidableEq, Repr

/-- Observable outcome of `CompleteButton.callback`. -/
inductive CompleteResult where
  | alreadyProcessed
  | notInProgress
  | completedOk
  | completeFailedInDb
  | raisedAttributeError (missing : String)
deriving DecidableEq, Repr

/-- The module-level functions defined in `database.py`.  `views.py` does
`import database as db` and resolves each `db.NAME` call against exactly
these names; resolving any other name raises `AttributeError`.  Note that
`complete_task` is *not* among them — the deletion function is named
`complete_task_in_db`. -/
def database_module_functions : List String :=
  ["get_db_connection", "_column_exists", "initialize_database",
   "set_channel", "get_channel_ids", "add_task", "get_task_by_id",
   "get_task_by_message_id", "get_tasks_by_status",
   "update_task_message_id", "claim_task", "complete_task_in_db",
   "remove_task_by_message_id", "cleanup_guild_data"]

/-- `CompleteButton.callback` (`views.py`): fetch the task; if absent
report already-processed; if not `'in_progress'` refuse; otherwise attempt
the completed-channel log — *every* branch of that attempt (no channel
configured, channel invalid, send ok, `Forbidden`, `HTTPException`) sets
`log_to_completed_channel_success = True` — and then call
`db.complete_task(...)`.  That attribute does not exist in `database.py`
(see `database_module_functions`), so the call raises `AttributeError`
before any deletion; the model returns the raised error with the table
untouched.  The source's `else` branch of the flag test is commented out
and unreachable; it is modelled as an arbitrary unreachable value. -/
def completeButtonCallback (tasks : List Task) (tid : Nat)
    (completed_channel : CompletedChannelState) :
    CompleteResult × List Task :=
  match get_task_by_id tasks tid with
  | none => (CompleteResult.alreadyProcessed, tasks)
  | some task_data =>
    if task_data.status ≠ "in_progress" then
      (CompleteResult.notInProgress, tasks)
    else
      let log_to_completed_channel_success :=
        match completed_channel with
        | CompletedChannelState.notConfigured => true
        | CompletedChannelState.channelInvalid => true
        | CompletedChannelState.channelValid PostRes.ok => true
        | CompletedChannelState.channelValid PostRes.forbidden => true
        | CompletedChannelState.channelValid PostRes.httpErr => true
      if log_to_completed_channel_success then
        if "complete_task" ∈ database_module_functions then
          let res := complete_task_in_db tasks tid
          if res.1 then (CompleteResult.completedOk, res.2)
          else (CompleteResult.completeFailedInDb, tasks)
        else (CompleteResult.raisedAttributeError "complete_task", tasks)
      else (CompleteResult.alreadyProcessed, tasks)

/-- C5 evidence (code bug): with in-progress task 2 and a completed-channel
post that fails with `Forbidden`, the callback's deletion step resolves
`db.complete_task`, which `database.py` does not define, so it raises
`AttributeError`: the task is *not* deleted from the store and no
degraded-success outcome is reported, contradicting the claim (whose
intent matches the code's own comments and the existing
`complete_task_in_db`). -/
theorem complete_button_raises_attribute_error :
    ("complete_task" ∉ database_module_functions) ∧
    completeButtonCallback [sampleOpen, sampleInProgress] 2
        (CompletedChannelState.channelValid PostRes.forbidden) =
      (CompleteResult.raisedAttributeError "complete_task",
       [sampleOpen, sampleInProgress]) ∧
    get_task_by_id [sampleOpen, sampleInProgress] 2 = some sampleInProgress := by
  decide

/-! ## Reconciliation (`resync_tasks_cmd`, `taskBot.py`)

The command body after its channel-configuration validation is modelled.
External-surface responses come from an `Env`: `delRes m` is the combined
outcome of `channel.fetch_message(m)` / `message.delete()` for the message
with ref `m`, and `postFails r` says whether the `channel.send(...)` that
would have produced ref `r` raises.  Refs of newly posted messages are
modelled by a monotone counter (`nextRef`), mirroring Discord's strictly
increasing snowflake ids. -/

/-- Outcome of fetching-and-deleting an existing message.  `notFound` and
`forbidden` are the two exception classes the old-message cleanup catches;
`otherHttp` is any other exception (e.g. a plain `HTTPException`), which
that cleanup does *not* catch. -/
inductive DelRes where
  | ok
  | notFound
  | forbidden
  | otherHttp
deriving DecidableEq, Repr

/-- External-surface responses consumed during one resync run. -/
structure Env where
  delRes : Nat → DelRes
  postFails : Nat → Bool

/-- The two per-status resync passes. -/
inductive Slot where
  | openSlot
  | inprogSlot
deriving DecidableEq, Repr

/-- The `message_type` string the pass gives `update_task_message_id`. -/
def slotName : Slot → String
  | Slot.openSlot => "open"
  | Slot.inprogSlot => "inprogress"

/-- The `message_type` string for the opposite column. -/
def otherName : Slot → String
  | Slot.openSlot => "inprogress"
  | Slot.inprogSlot => "open"

/-- The reference column a pass reads (`task_data[...]`) and rewrites. -/
def slotOldRef : Slot → Task → Option Nat
  | Slot.openSlot, t => t.open_message_id
  | Slot.inprogSlot, t => t.inprogress_message_id

/-- The opposite reference column. -/
def otherRef : Slot → Task → Option Nat
  | Slot.openSlot, t => t.inprogress_message_id
  | Slot.inprogSlot, t => t.open_message_id

/-- The entries appended to the command's `errors` list. -/
inductive ResyncError where
  | dbUpdateFailed (slot : Slot) (task_id : Nat)
  | stepException (slot : Slot) (task_id : Nat)
deriving DecidableEq, Repr

/-- Loop state threaded through the resync passes. -/
structure ResyncState where
  tasks : List Task
  nextRef : Nat
  count : Nat
  errors : List ResyncError
  deletedNew : List Nat
deriving DecidableEq, Repr

/-- Whether the old-message cleanup for this snapshot row raises an
exception that its `except (discord.NotFound, discord.Forbidden)` does
*not* catch — which propagates out of the whole command. -/
def oldDelAborts (env : Env) (slot : Slot) (task_data : Task) : Bool :=
  match slotOldRef slot task_data with
  | some m => env.delRes m == DelRes.otherHttp
  | none => false

/-- One iteration of a resync pass (`taskBot.py`): delete the old message
if a ref is stored (ignoring not-found/forbidden); post the fresh
representation; on send failure record the error and continue; otherwise
record the new ref, and only if that recording succeeded clear the other
column and count the task; if the recording failed, record the error and
delete the just-posted message (a failure of *that* delete adds the generic
per-task error).  `none` models the uncaught exception aborting the whole
command. -/
def resyncStep (env : Env) (slot : Slot) (st : ResyncState)
    (task_data : Task) : Option ResyncState :=
  if oldDelAborts env slot task_data then none
  else if env.postFails st.nextRef then
    some { st with errors := st.errors ++
      [ResyncError.stepException slot task_data.task_id] }
  else
    if (update_task_message_id st.tasks task_data.task_id (slotName slot)
        (some st.nextRef)).1 then
      some { tasks := (update_task_message_id
               (update_task_message_id st.tasks task_data.task_id
                 (slotName slot) (some st.nextRef)).2
               task_data.task_id (otherName slot) none).2,
             nextRef := st.nextRef + 1, count := st.count + 1,
             errors := st.errors, deletedNew := st.deletedNew }
    else
      some { tasks := (update_task_message_id st.tasks task_data.task_id
               (slotName slot) (some st.nextRef)).2,
             nextRef := st.nextRef + 1, count := st.count,
             errors := (st.errors ++
               [ResyncError.dbUpdateFailed slot task_data.task_id]) ++
               (if env.delRes st.nextRef == DelRes.ok then []
                else [ResyncError.stepException slot task_data.task_id]),
             deletedNew := st.deletedNew ++ [st.nextRef] }

/-- One resync pass over the snapshot returned by `get_tasks_by_status`
(the `fetchall()` list is fixed before the loop; updates apply to the live
table). -/
def resyncClass (env : Env) (slot : Slot) (snap : List Task)
    (st : ResyncState) : Option ResyncState :=
  match snap with
  | [] => some st
  | t :: rest =>
    match resyncStep env slot st t with
    | none => none
    | some st2 => resyncClass env slot rest st2

/-- Final observable outcome of `/resync_tasks`. -/
structure ResyncOutcome where
  tasks : List Task
  nextRef : Nat
  resynced_open_count : Nat
  resynced_inprogress_count : Nat
  errors : List ResyncError
  deletedNew : List Nat
deriving DecidableEq, Repr

/-- `resync_tasks_cmd` (`taskBot.py`, body after the channel checks): run
the open pass over the open snapshot, then the in-progress pass over the
in-progress snapshot taken from the updated table.  `none` models an
uncaught exception aborting the command. -/
def resync_tasks_cmd (env : Env) (guild_id : Nat) (tasks : List Task)
    (nextRef : Nat) : Option ResyncOutcome :=
  let open_tasks_to_resync := get_tasks_by_status tasks guild_id "open"
  match resyncClass env Slot.openSlot open_tasks_to_resync
      { tasks := tasks, nextRef := nextRef, count := 0,
        errors := [], deletedNew := [] } with
  | none => none
  | some st1 =>
    let inprogress_tasks_to_resync :=
      get_tasks_by_status st1.tasks guild_id "in_progress"
    match resyncClass env Slot.inprogSlot inprogress_tasks_to_resync
        { st1 with count := 0 } with
    | none => none
    | some st2 =>
      some { tasks := st2.tasks, nextRef := st2.nextRef,
             resynced_open_count := st1.count,
             resynced_inprogress_count := st2.count,
             errors := st2.errors, deletedNew := st2.deletedNew }

/-- The failure-free environment: every surface call succeeds. -/
def envOk : Env :=
  { delRes := fun _ => DelRes.ok, postFails := fun _ => false }

/-- `refBelow o n`: the stored ref (if any) is smaller than `n`. -/
def refBelow : Option Nat → Nat → Prop
  | none, _ => True
  | some m, n => m < n

instance : ∀ (o : Option Nat) (n : Nat), Decidable (refBelow o n)
  | none, _ => isTrue trivial
  | some _, _ => Nat.decLt _ _

/-- All stored message refs are below the fresh-ref counter (Discord
snowflakes are strictly increasing, so freshly posted ids never collide
with stored ones). -/
def RefsBelow (tasks : List Task) (n : Nat) : Prop :=
  ∀ t ∈ tasks, refBelow t.open_message_id n ∧
    refBelow t.inprogress_message_id n

instance (tasks : List Task) (n : Nat) : Decidable (RefsBelow tasks n) := by
  unfold RefsBelow
  infer_instance

/-- Helper: the pass's slot string is always a valid `message_type`. -/
theorem slotName_valid (slot : Slot) :
    slotName slot = "open" ∨ slotName slot = "inprogress" := by
  cases slot
  · exact Or.inl rfl
  · exact Or.inr rfl

/-- Helper: the opposite slot string is always a valid `message_type`. -/
theorem otherName_valid (slot : Slot) :
    otherName slot = "open" ∨ otherName slot = "inprogress" := by
  cases slot
  · exact Or.inr rfl
  · exact Or.inl rfl

/-- Helper: a failed `update_task_message_id` rolls back: the table part of
the result is the input table. -/
theorem update_task_message_id_false_snd (tasks : List Task) (tid : Nat)
    (mt : String) (mid : Option Nat)
    (h : (update_task_message_id tasks tid mt mid).1 = false) :
    (update_task_message_id tasks tid mt mid).2 = tasks := by
  unfold update_task_message_id at h ⊢
  by_cases hv : mt = "open" ∨ mt = "inprogress"
  · rw [if_pos hv] at h ⊢
    by_cases hc : ref_conflict tasks tid mt mid = true
    · rw [if_pos hc]
    · rw [Bool.not_eq_true] at hc
      rw [hc, if_neg (by simp)] at h
      exact absurd h (by simp)
  · rw [if_neg hv]

/-- Helper: writing into the pass's own column leaves the opposite column
of the rewritten row untouched being set to `none` when the written value
is `none` in the opposite slot; specialised to the clearing update. -/
theorem otherRef_set_none (slot : Slot) (v : Task) :
    otherRef slot (if otherName slot = "open"
      then { v with open_message_id := none }
      else { v with inprogress_message_id := none }) = none := by
  cases slot
  · rw [if_neg (by decide : ¬(otherName Slot.openSlot = "open"))]
    rfl
  · rw [if_pos (by decide : otherName Slot.inprogSlot = "open")]
    rfl

/-- The C7/C8 scenarios: `c7t1` is an open task still carrying a stale
in-progress ref 5; `c7t2` is an open task whose stored open ref 100
collides with the first fresh ref the resync will post. -/
def c7t1 : Task :=
  { task_id := 1, guild_id := 1, description := "a", status := "open",
    creator_id := 1, assignee_id := none, open_message_id := none,
    inprogress_message_id := some 5 }

/-- See `c7t1`. -/
def c7t2 : Task :=
  { task_id := 2, guild_id := 1, description := "b", status := "open",
    creator_id := 1, assignee_id := none, open_message_id := some 100,
    inprogress_message_id := none }

/-- Counterexample for C7: resyncing `[c7t1, c7t2]` with fresh refs from
100, task 1's recording fails (ref 100 is already task 2's open ref), and
the loop — whose clearing update sits inside the success branch — leaves
task 1 entirely unchanged, still holding its stale in-progress ref 5: the
other-slot reference is *not* cleared when recording fails. -/
theorem resync_keeps_other_ref_on_failed_recording :
    resync_tasks_cmd envOk 1 [c7t1, c7t2] 100 =
      some { tasks := [c7t1,
               { task_id := 2, guild_id := 1, description := "b",
                 status := "open", creator_id := 1, assignee_id := none,
                 open_message_id := some 101, inprogress_message_id := none }],
             nextRef := 102, resynced_open_count := 1,
             resynced_inprogress_count := 0,
             errors := [ResyncError.dbUpdateFailed Slot.openSlot 1],
             deletedNew := [100] } ∧
    c7t1.inprogress_message_id = some 5 := by
  decide

/-- C7 (amended): during a resync pass, the other status class's reference
is cleared only when recording the new reference succeeded; when the
recording fails the task's rows are left entirely unchanged (so a task may
keep a stale other-slot reference until a later repair). -/
theorem resync_step_clears_other_only_on_success (env : Env) (slot : Slot)
    (st : ResyncState) (t : Task)
    (hdel : ∀ mm, slotOldRef slot t = some mm →
      env.delRes mm ≠ DelRes.otherHttp)
    (hpost : env.postFails st.nextRef = false) :
    ((update_task_message_id st.tasks t.task_id (slotName slot)
        (some st.nextRef)).1 = true →
      ∃ st2, resyncStep env slot st t = some st2 ∧
        ∀ u ∈ st2.tasks, u.task_id = t.task_id → otherRef slot u = none) ∧
    ((update_task_message_id st.tasks t.task_id (slotName slot)
        (some st.nextRef)).1 = false →
      ∃ st2, resyncStep env slot st t = some st2 ∧ st2.tasks = st.tasks) := by
  have habort : oldDelAborts env slot t = false := by
    unfold oldDelAborts
    cases h : slotOldRef slot t with
    | none => rfl
    | some m => exact beq_eq_false_iff_ne.mpr (hdel m h)
  constructor
  · intro hupd
    unfold resyncStep
    rw [habort, if_neg (by simp), hpost, if_neg (by simp), if_pos hupd]
    refine ⟨_, rfl, ?_⟩
    intro u hu huid
    have hq := update_task_message_id_eq_map
      (update_task_message_id st.tasks t.task_id (slotName slot)
        (some st.nextRef)).2
      t.task_id (otherName slot) none (otherName_valid slot) rfl
    rw [hq] at hu
    obtain ⟨v, hv, rfl⟩ := List.mem_map.mp hu
    rw [task_id_update_map] at huid
    rw [if_pos (by simp [huid])]
    exact otherRef_set_none slot v
  · intro hupd
    unfold resyncStep
    rw [habort, if_neg (by simp), hpost, if_neg (by simp), hupd,
      if_neg (by simp)]
    exact ⟨_, rfl, update_task_message_id_false_snd _ _ _ _ hupd⟩

/-- Witness for C7 (amended): the step on the concrete colliding store is
reached (no abort) and handled. -/
theorem resync_step_clears_other_only_on_success_witness :
    resyncStep envOk Slot.openSlot
      { tasks := [c7t1, c7t2], nextRef := 100, count := 0,
        errors := [], deletedNew := [] } c7t1 ≠ none := by
  obtain ⟨st2, hstep, h2⟩ :=
    (resync_step_clears_other_only_on_success envOk Slot.openSlot
      { tasks := [c7t1, c7t2], nextRef := 100, count := 0,
        errors := [], deletedNew := [] } c7t1
      (by intro mm hmm; simp [slotOldRef, c7t1] at hmm) rfl).2 (by decide)
  rw [hstep]
  exact Option.some_ne_none st2

/-- Surface environment for the C8 scenario: deleting old message 50 fails
with `NotFound`; everything else succeeds. -/
def env8 : Env :=
  { delRes := fun mm => if mm == 50 then DelRes.notFound else DelRes.ok,
    postFails := fun _ => false }

/-- An open task whose stored open message 50 no longer exists. -/
def c8t : Task :=
  { task_id := 1, guild_id := 1, description := "a", status := "open",
    creator_id := 1, assignee_id := none, open_message_id := some 50,
    inprogress_message_id := none }

/-- Counterexample for C8: the old-message deletion for task 1 fails
(`NotFound`), yet the resync records *no* reconciliation failure — the
errors list stays empty and the task is counted as resynced (count 1),
proceeding normally — contradicting the claim that *any* failure while
processing a task (including deleting its old external message) records
the task as a reconciliation failure. -/
theorem resync_ignores_old_message_delete_failure :
    env8.delRes 50 = DelRes.notFound ∧
    c8t.open_message_id = some 50 ∧
    resync_tasks_cmd env8 1 [c8t] 100 =
      some { tasks := [{ task_id := 1, guild_id := 1, description := "a",
                         status := "open", creator_id := 1,
                         assignee_id := none, open_message_id := some 100,
                         inprogress_message_id := none }],
             nextRef := 101, resynced_open_count := 1,
             resynced_inprogress_count := 0, errors := [],
             deletedNew := [] } := by
  decide

/-- C8 (amended): failures *posting* the new message or *recording* its
reference are isolated per task: the step still returns (the batch
continues), the task's rows are unchanged, the task is not counted, the
failure is recorded in the errors list, and on a recording failure the
just-posted ref is deleted; a whole pass completes whenever no task's
old-message cleanup raises an uncaught (non-NotFound/Forbidden) error.
Old-message delete failures of the NotFound/Forbidden kind are merely
ignored (see the C8 counterexample). -/
theorem resync_failures_isolated :
    (∀ (env : Env) (slot : Slot) (st : ResyncState) (t : Task),
      (∀ mm, slotOldRef slot t = some mm →
        env.delRes mm ≠ DelRes.otherHttp) →
      ∃ st2, resyncStep env slot st t = some st2 ∧
        (env.postFails st.nextRef = true →
          st2.tasks = st.tasks ∧ st2.count = st.count ∧
          ResyncError.stepException slot t.task_id ∈ st2.errors) ∧
        (env.postFails st.nextRef = false →
          (update_task_message_id st.tasks t.task_id (slotName slot)
            (some st.nextRef)).1 = false →
          st2.tasks = st.tasks ∧ st2.count = st.count ∧
          st2.deletedNew = st.deletedNew ++ [st.nextRef] ∧
          ResyncError.dbUpdateFailed slot t.task_id ∈ st2.errors)) ∧
    (∀ (env : Env) (slot : Slot) (snap : List Task) (st : ResyncState),
      (∀ t ∈ snap, ∀ mm, slotOldRef slot t = some mm →
        env.delRes mm ≠ DelRes.otherHttp) →
      ∃ st2, resyncClass env slot snap st = some st2) := by
  constructor
  · intro env slot st t hdel
    have habort : oldDelAborts env slot t = false := by
      unfold oldDelAborts
      cases h : slotOldRef slot t with
      | none => rfl
      | some m => exact beq_eq_false_iff_ne.mpr (hdel m h)
    unfold resyncStep
    rw [habort, if_neg (by simp)]
    by_cases hp : env.postFails st.nextRef = true
    · rw [if_pos hp]
      refine ⟨_, rfl, fun _ => ⟨rfl, rfl, by simp⟩, fun h2 _ => ?_⟩
      rw [hp] at h2
      exact Bool.noConfusion h2
    · rw [if_neg hp]
      rw [Bool.not_eq_true] at hp
      by_cases hu : (update_task_message_id st.tasks t.task_id
          (slotName slot) (some st.nextRef)).1 = true
      · rw [if_pos hu]
        refine ⟨_, rfl, fun h => ?_, fun _ hfalse => ?_⟩
        · rw [hp] at h
          exact Bool.noConfusion h
        · rw [hfalse] at hu
          exact Bool.noConfusion hu
      · rw [if_neg hu]
        rw [Bool.not_eq_true] at hu
        refine ⟨_, rfl, fun h => ?_, fun _ _ => ?_⟩
        · rw [hp] at h
          exact Bool.noConfusion h
        · exact ⟨update_task_message_id_false_snd _ _ _ _ hu, rfl, rfl,
            by simp⟩
  · intro env slot snap
    induction snap with
    | nil => exact fun st _ => ⟨st, rfl⟩
    | cons t rest ih =>
      intro st hall
      have habort : oldDelAborts env slot t = false := by
        unfold oldDelAborts
        cases h : slotOldRef slot t with
        | none => rfl
        | some m =>
            exact beq_eq_false_iff_ne.mpr (hall t (List.mem_cons_self t rest) m h)
      have hsome : ∃ st2, resyncStep env slot st t = some st2 := by
        unfold resyncStep
        rw [habort, if_neg (by simp)]
        by_cases hp : env.postFails st.nextRef = true
        · rw [if_pos hp]
          exact ⟨_, rfl⟩
        · rw [if_neg hp]
          by_cases hu : (update_task_message_id st.tasks t.task_id
              (slotName slot) (some st.nextRef)).1 = true
          · rw [if_pos hu]
            exact ⟨_, rfl⟩
          · rw [if_neg hu]
            exact ⟨_, rfl⟩
      obtain ⟨st2, hstep⟩ := hsome
      obtain ⟨st3, h3⟩ := ih st2
        (fun t' ht' => hall t' (List.mem_cons_of_mem _ ht'))
      refine ⟨st3, ?_⟩
      unfold resyncClass
      rw [hstep]
      exact h3

/-- Witness for C8 (amended): the whole open pass over the concrete
one-task store completes. -/
theorem resync_failures_isolated_witness :
    resyncClass env8 Slot.openSlot [c8t]
      { tasks := [c8t], nextRef := 100, count := 0,
        errors := [], deletedNew := [] } ≠ none := by
  obtain ⟨st2, h2⟩ := resync_failures_isolated.2 env8 Slot.openSlot [c8t]
    { tasks := [c8t], nextRef := 100, count := 0,
      errors := [], deletedNew := [] }
    (by
      intro t ht mm hmm hcontra
      rw [List.mem_singleton] at ht
      subst ht
      simp [slotOldRef, c8t] at hmm
      subst hmm
      simp [env8] at hcontra)
  rw [h2]
  exact Option.some_ne_none st2

/-- The columns of a row that no resync pass ever rewrites. -/
def core (t : Task) : Nat × Nat × String × String × Nat × Option Nat :=
  (t.task_id, t.guild_id, t.status, t.description, t.creator_id,
   t.assignee_id)

/-- The task-to-reference mapping modulo reference identity: which row it
is and which reference slots are populated. -/
def refShape (t : Task) : Nat × Nat × String × Bool × Bool :=
  (t.task_id, t.guild_id, t.status, t.open_message_id.isSome,
   t.inprogress_message_id.isSome)

theorem core_task_id {t u : Task} (h : core t = core u) :
    t.task_id = u.task_id :=
  congrArg (fun p => p.1) h

theorem core_guild_id {t u : Task} (h : core t = core u) :
    t.guild_id = u.guild_id :=
  congrArg (fun p => p.2.1) h

theorem core_status {t u : Task} (h : core t = core u) :
    t.status = u.status :=
  congrArg (fun p => p.2.2.1) h

/-- Helper: writing a fresh ref (equal to the counter, above every stored
ref) can never trip the `UNIQUE` constraint. -/
theorem ref_conflict_false_of_fresh (tasks : List Task) (n : Nat)
    (tid : Nat) (mt : String) (hfresh : RefsBelow tasks n) :
    ref_conflict tasks tid mt (some n) = false := by
  have hany : (tasks.any (fun u => !(u.task_id == tid) &&
      (if mt = "open" then u.open_message_id == some n
       else u.inprogress_message_id == some n))) = false := by
    rw [List.any_eq_false]
    intro u hu
    obtain ⟨ho, hi⟩ := hfresh u hu
    intro hcontra
    rw [Bool.and_eq_true] at hcontra
    have h2 := hcontra.2
    by_cases hmt : mt = "open"
    · rw [if_pos hmt, beq_iff_eq] at h2
      rw [h2] at ho
      exact absurd ho (Nat.lt_irrefl n)
    · rw [if_neg hmt, beq_iff_eq] at h2
      rw [h2] at hi
      exact absurd hi (Nat.lt_irrefl n)
  simp only [ref_conflict, hany, Bool.and_false]

/-- Helper: the rewritten column of the pass's own update, seen through
the pass's slot. -/
theorem slotRef_update_slotName (slot : Slot) (tid : Nat) (mid : Option Nat)
    (t : Task) :
    slotOldRef slot ((if t.task_id == tid then
      (if slotName slot = "open" then { t with open_message_id := mid }
       else { t with inprogress_message_id := mid }) else t) : Task) =
    if t.task_id == tid then mid else slotOldRef slot t := by
  cases slot <;> by_cases h : (t.task_id == tid) = true <;>
    simp [slotName, slotOldRef, h]

/-- Helper: the pass's own update leaves the opposite column alone. -/
theorem otherRef_update_slotName (slot : Slot) (tid : Nat) (mid : Option Nat)
    (t : Task) :
    otherRef slot ((if t.task_id == tid then
      (if slotName slot = "open" then { t with open_message_id := mid }
       else { t with inprogress_message_id := mid }) else t) : Task) =
    otherRef slot t := by
  cases slot <;> by_cases h : (t.task_id == tid) = true <;>
    simp [slotName, otherRef, h]

/-- Helper: the clearing update leaves the pass's own column alone. -/
theorem slotRef_update_otherName (slot : Slot) (tid : Nat) (mid : Option Nat)
    (t : Task) :
    slotOldRef slot ((if t.task_id == tid then
      (if otherName slot = "open" then { t with open_message_id := mid }
       else { t with inprogress_message_id := mid }) else t) : Task) =
    slotOldRef slot t := by
  cases slot <;> by_cases h : (t.task_id == tid) = true <;>
    simp [otherName, slotOldRef, h]

/-- Helper: the rewritten column of the clearing update, seen through the
opposite slot. -/
theorem otherRef_update_otherName (slot : Slot) (tid : Nat) (mid : Option Nat)
    (t : Task) :
    otherRef slot ((if t.task_id == tid then
      (if otherName slot = "open" then { t with open_message_id := mid }
       else { t with inprogress_message_id := mid }) else t) : Task) =
    if t.task_id == tid then mid else otherRef slot t := by
  cases slot <;> by_cases h : (t.task_id == tid) = true <;>
    simp [otherName, otherRef, h]

/-- Helper: the update lambdas keep `core`. -/
theorem core_update_map (tid : Nat) (mt : String) (mid : Option Nat)
    (t : Task) :
    core ((if t.task_id == tid then
      (if mt = "open" then { t with open_message_id := mid }
       else { t with inprogress_message_id := mid }) else t) : Task) =
    core t := by
  by_cases h : (t.task_id == tid) = true
  · rw [if_pos h]
    by_cases h2 : mt = "open"
    · rw [if_pos h2]
      rfl
    · rw [if_neg h2]
      rfl
  · rw [if_neg h]

/-- Helper: the two-column freshness bound read slot-wise. -/
theorem refBelow_both_iff (slot : Slot) (t : Task) (n : Nat) :
    (refBelow t.open_message_id n ∧ refBelow t.inprogress_message_id n) ↔
    (refBelow (slotOldRef slot t) n ∧ refBelow (otherRef slot t) n) := by
  cases slot
  · exact Iff.rfl
  · exact and_comm

/-- Characterization of one failure-free resync step with a fresh counter:
the step succeeds, posts ref `st.nextRef`, records it in the pass's column
of the target row, clears the opposite column, and touches nothing else. -/
theorem resyncStep_envOk (slot : Slot) (st : ResyncState) (t : Task)
    (hfresh : RefsBelow st.tasks st.nextRef) :
    ∃ st2, resyncStep envOk slot st t = some st2 ∧
      st2.nextRef = st.nextRef + 1 ∧
      st2.errors = st.errors ∧
      st2.tasks.length = st.tasks.length ∧
      RefsBelow st2.tasks st2.nextRef ∧
      (∀ i (h1 : i < st.tasks.length) (h2 : i < st2.tasks.length),
        core st2.tasks[i] = core st.tasks[i] ∧
        (st.tasks[i].task_id = t.task_id →
          slotOldRef slot st2.tasks[i] = some st.nextRef ∧
          otherRef slot st2.tasks[i] = none) ∧
        (st.tasks[i].task_id ≠ t.task_id →
          slotOldRef slot st2.tasks[i] = slotOldRef slot st.tasks[i] ∧
          otherRef slot st2.tasks[i] = otherRef slot st.tasks[i])) := by
  have habort : oldDelAborts envOk slot t = false := by
    unfold oldDelAborts
    cases slotOldRef slot t <;> rfl
  have hconf := ref_conflict_false_of_fresh st.tasks st.nextRef t.task_id
    (slotName slot) hfresh
  have hupd := update_task_message_id_eq_map st.tasks t.task_id
    (slotName slot) (some st.nextRef) (slotName_valid slot) hconf
  have hupd2 := update_task_message_id_eq_map
    (update_task_message_id st.tasks t.task_id (slotName slot)
      (some st.nextRef)).2
    t.task_id (otherName slot) none (otherName_valid slot) rfl
  have hstep : resyncStep envOk slot st t = some
      { tasks := (update_task_message_id
          (update_task_message_id st.tasks t.task_id (slotName slot)
            (some st.nextRef)).2
          t.task_id (otherName slot) none).2,
        nextRef := st.nextRef + 1, count := st.count + 1,
        errors := st.errors, deletedNew := st.deletedNew } := by
    unfold resyncStep
    rw [habort, if_neg (by simp), if_neg (by simp [envOk]),
      if_pos (by rw [hupd])]
  have htasks : (update_task_message_id
      (update_task_message_id st.tasks t.task_id (slotName slot)
        (some st.nextRef)).2
      t.task_id (otherName slot) none).2 =
      (st.tasks.map (fun u =>
        if u.task_id == t.task_id then
          (if slotName slot = "open"
           then { u with open_message_id := some st.nextRef }
           else { u with inprogress_message_id := some st.nextRef })
        else u)).map (fun u =>
        if u.task_id == t.task_id then
          (if otherName slot = "open"
           then { u with open_message_id := none }
           else { u with inprogress_message_id := none })
        else u) := by
    rw [hupd2, hupd]
  refine ⟨_, hstep, rfl, rfl, ?_, ?_, ?_⟩
  · simp only [htasks, List.length_map]
  · -- freshness is preserved under the bumped counter
    intro v hv
    rw [htasks] at hv
    obtain ⟨w, hw, rfl⟩ := List.mem_map.mp hv
    obtain ⟨u, hu, rfl⟩ := List.mem_map.mp hw
    rw [refBelow_both_iff slot]
    rw [otherRef_update_otherName, slotRef_update_otherName,
      slotRef_update_slotName, otherRef_update_slotName]
    have hub := (refBelow_both_iff slot u st.nextRef).mp (hfresh u hu)
    constructor
    · by_cases hc : (u.task_id == t.task_id) = true
      · rw [if_pos hc]
        exact Nat.lt_succ_self st.nextRef
      · rw [if_neg hc]
        cases hso : slotOldRef slot u with
        | none => trivial
        | some mm =>
            have := hub.1
            rw [hso] at this
            exact Nat.lt_succ_of_lt this
    · by_cases hc : (u.task_id == t.task_id) = true
      · rw [task_id_update_map, if_pos hc]
        trivial
      · rw [task_id_update_map, if_neg hc]
        cases hso : otherRef slot u with
        | none => trivial
        | some mm =>
            have := hub.2
            rw [hso] at this
            exact Nat.lt_succ_of_lt this
  · intro i h1 h2
    simp only [htasks, List.getElem_map]
    refine ⟨?_, ?_, ?_⟩
    · rw [core_update_map, core_update_map]
    · intro hid
      rw [otherRef_update_otherName, slotRef_update_otherName,
        slotRef_update_slotName, task_id_update_map]
      rw [if_pos (by simp [hid]), if_pos (by simp [hid])]
      exact ⟨rfl, rfl⟩
    · intro hid
      rw [otherRef_update_otherName, slotRef_update_otherName,
        slotRef_update_slotName, task_id_update_map]
      rw [if_neg (by simp [hid]), if_neg (by simp [hid]),
        otherRef_update_slotName]
      exact ⟨rfl, rfl⟩

/-- Characterization of a whole failure-free resync pass with a fresh
counter: it completes without errors; rows whose id occurs in the snapshot
end with the pass's column populated and the opposite column cleared; all
other rows keep both reference columns; `core` data is untouched
everywhere and freshness is maintained. -/
theorem resyncClass_envOk (slot : Slot) (snap : List Task) :
    ∀ (st : ResyncState), RefsBelow st.tasks st.nextRef →
    ∃ st2, resyncClass envOk slot snap st = some st2 ∧
      st2.errors = st.errors ∧
      st2.tasks.length = st.tasks.length ∧
      st.nextRef ≤ st2.nextRef ∧
      RefsBelow st2.tasks st2.nextRef ∧
      (∀ i (h1 : i < st.tasks.length) (h2 : i < st2.tasks.length),
        core st2.tasks[i] = core st.tasks[i] ∧
        (st.tasks[i].task_id ∈ snap.map Task.task_id →
          (slotOldRef slot st2.tasks[i]).isSome = true ∧
          otherRef slot st2.tasks[i] = none) ∧
        (st.tasks[i].task_id ∉ snap.map Task.task_id →
          slotOldRef slot st2.tasks[i] = slotOldRef slot st.tasks[i] ∧
          otherRef slot st2.tasks[i] = otherRef slot st.tasks[i])) := by
  induction snap with
  | nil =>
      intro st hfresh
      refine ⟨st, rfl, rfl, rfl, Nat.le_refl _, hfresh, ?_⟩
      intro i h1 h2
      refine ⟨rfl, ?_, fun _ => ⟨rfl, rfl⟩⟩
      intro hmem
      simp at hmem
  | cons t rest ih =>
      intro st hfresh
      obtain ⟨st1, hstep, hnref, herr1, hlen1, hRB1, hp1⟩ :=
        resyncStep_envOk slot st t hfresh
      obtain ⟨st2, hclass, herr2, hlen2, hle2, hRB2, hp2⟩ := ih st1 hRB1
      refine ⟨st2, ?_, ?_, ?_, ?_, hRB2, ?_⟩
      · unfold resyncClass
        rw [hstep]
        exact hclass
      · rw [herr2, herr1]
      · rw [hlen2, hlen1]
      · rw [hnref] at hle2
        omega
      · intro i h1 h2
        have h1' : i < st1.tasks.length := by
          rw [hlen1]
          exact h1
        obtain ⟨hcore1, hmatch1, hmiss1⟩ := hp1 i h1 h1'
        obtain ⟨hcore2, hmem2, hmiss2⟩ := hp2 i h1' h2
        have hid1 : st1.tasks[i].task_id = st.tasks[i].task_id :=
          core_task_id hcore1
        refine ⟨hcore2.trans hcore1, ?_, ?_⟩
        · intro hmem
          rw [List.map_cons, List.mem_cons] at hmem
          by_cases hr : st.tasks[i].task_id ∈ rest.map Task.task_id
          · exact hmem2 (by rw [hid1]; exact hr)
          · rcases hmem with hm | hm
            · have hnot1 : st1.tasks[i].task_id ∉ rest.map Task.task_id := by
                rw [hid1]
                exact hr
              obtain ⟨hs2, ho2⟩ := hmiss2 hnot1
              obtain ⟨hs1, ho1⟩ := hmatch1 hm
              refine ⟨?_, ?_⟩
              · rw [hs2, hs1]
                rfl
              · rw [ho2, ho1]
            · exact absurd hm hr
        · intro hmem
          rw [List.map_cons, List.mem_cons] at hmem
          push_neg at hmem
          obtain ⟨hne, hnr⟩ := hmem
          have hnot1 : st1.tasks[i].task_id ∉ rest.map Task.task_id := by
            rw [hid1]
            exact hnr
          obtain ⟨hs2, ho2⟩ := hmiss2 hnot1
          obtain ⟨hs1, ho1⟩ := hmiss1 hne
          exact ⟨hs2.trans hs1, ho2.trans ho1⟩

/-- Helper: a row matching a snapshot's guild and status contributes its
id to that snapshot. -/
theorem id_in_snapshot (L : List Task) (g : Nat) (s : String) (i : Nat)
    (h : i < L.length) (hg : L[i].guild_id = g) (hs : L[i].status = s) :
    L[i].task_id ∈ (get_tasks_by_status L g s).map Task.task_id := by
  refine List.mem_map_of_mem Task.task_id ?_
  unfold get_tasks_by_status
  exact List.mem_filter.mpr ⟨List.getElem_mem h, by simp [hg, hs]⟩

/-- Helper: under the primary key, a row not matching a snapshot's guild
and status does not contribute its id to that snapshot. -/
theorem id_not_in_snapshot (L : List Task) (g : Nat) (s : String)
    (hids : IdsNodup L) (i : Nat) (h : i < L.length)
    (hne : ¬(L[i].guild_id = g ∧ L[i].status = s)) :
    L[i].task_id ∉ (get_tasks_by_status L g s).map Task.task_id := by
  intro hmem
  obtain ⟨v, hv, hveq⟩ := List.mem_map.mp hmem
  unfold get_tasks_by_status at hv
  obtain ⟨hvmem, hvpred⟩ := List.mem_filter.mp hv
  rw [Bool.and_eq_true, beq_iff_eq, beq_iff_eq] at hvpred
  have hvi : v = L[i] :=
    eq_of_mem_of_id_eq hids hvmem (List.getElem_mem h) hveq
  rw [hvi] at hvpred
  exact hne hvpred

/-- Characterization of one whole failure-free `/resync_tasks` run with a
fresh counter: it completes with an empty errors list; every task of the
guild in status `'open'` ends holding exactly a (fresh) open ref, every
task of the guild in `'in_progress'` exactly an in-progress ref; all other
rows keep both reference columns unchanged; `core` data, the row count and
the primary key are untouched, and freshness is maintained. -/
theorem resync_cmd_envOk (g : Nat) (tasks : List Task) (n : Nat)
    (hids : IdsNodup tasks) (hfresh : RefsBelow tasks n) :
    ∃ out, resync_tasks_cmd envOk g tasks n = some out ∧
      out.errors = [] ∧
      out.tasks.length = tasks.length ∧
      IdsNodup out.tasks ∧
      RefsBelow out.tasks out.nextRef ∧
      (∀ i (h1 : i < tasks.length) (h2 : i < out.tasks.length),
        core out.tasks[i] = core tasks[i] ∧
        (tasks[i].guild_id = g → tasks[i].status = "open" →
          out.tasks[i].open_message_id.isSome = true ∧
          out.tasks[i].inprogress_message_id = none) ∧
        (tasks[i].guild_id = g → tasks[i].status = "in_progress" →
          out.tasks[i].inprogress_message_id.isSome = true ∧
          out.tasks[i].open_message_id = none) ∧
        (¬(tasks[i].guild_id = g ∧
            (tasks[i].status = "open" ∨ tasks[i].status = "in_progress")) →
          out.tasks[i].open_message_id = tasks[i].open_message_id ∧
          out.tasks[i].inprogress_message_id =
            tasks[i].inprogress_message_id)) := by
  obtain ⟨st1, hc1, herr1, hlen1, hle1, hRB1, hp1⟩ :=
    resyncClass_envOk Slot.openSlot (get_tasks_by_status tasks g "open")
      { tasks := tasks, nextRef := n, count := 0, errors := [],
        deletedNew := [] } hfresh
  have herr1' : st1.errors = [] := herr1
  have hlen1' : st1.tasks.length = tasks.length := hlen1
  have hp1' : ∀ i (h1 : i < tasks.length) (h2 : i < st1.tasks.length),
      core st1.tasks[i] = core tasks[i] ∧
      (tasks[i].task_id ∈
          (get_tasks_by_status tasks g "open").map Task.task_id →
        (slotOldRef Slot.openSlot st1.tasks[i]).isSome = true ∧
        otherRef Slot.openSlot st1.tasks[i] = none) ∧
      (tasks[i].task_id ∉
          (get_tasks_by_status tasks g "open").map Task.task_id →
        slotOldRef Slot.openSlot st1.tasks[i] =
          slotOldRef Slot.openSlot tasks[i] ∧
        otherRef Slot.openSlot st1.tasks[i] =
          otherRef Slot.openSlot tasks[i]) :=
    fun i h1 h2 => hp1 i h1 h2
  have hidseq1 : st1.tasks.map Task.task_id = tasks.map Task.task_id := by
    refine List.ext_getElem
      (by rw [List.length_map, List.length_map, hlen1']) ?_
    intro i hi1 hi2
    rw [List.getElem_map, List.getElem_map]
    exact core_task_id
      (hp1' i (by simpa using hi2) (by simpa using hi1)).1
  have hids1 : IdsNodup st1.tasks := by
    unfold IdsNodup at hids ⊢
    rw [hidseq1]
    exact hids
  obtain ⟨st2, hc2, herr2, hlen2, hle2, hRB2, hp2⟩ :=
    resyncClass_envOk Slot.inprogSlot
      (get_tasks_by_status st1.tasks g "in_progress")
      { st1 with count := 0 } hRB1
  have herr2' : st2.errors = st1.errors := herr2
  have hlen2' : st2.tasks.length = st1.tasks.length := hlen2
  have hp2' : ∀ i (h1 : i < st1.tasks.length) (h2 : i < st2.tasks.length),
      core st2.tasks[i] = core st1.tasks[i] ∧
      (st1.tasks[i].task_id ∈
          (get_tasks_by_status st1.tasks g "in_progress").map Task.task_id →
        (slotOldRef Slot.inprogSlot st2.tasks[i]).isSome = true ∧
        otherRef Slot.inprogSlot st2.tasks[i] = none) ∧
      (st1.tasks[i].task_id ∉
          (get_tasks_by_status st1.tasks g "in_progress").map Task.task_id →
        slotOldRef Slot.inprogSlot st2.tasks[i] =
          slotOldRef Slot.inprogSlot st1.tasks[i] ∧
        otherRef Slot.inprogSlot st2.tasks[i] =
          otherRef Slot.inprogSlot st1.tasks[i]) :=
    fun i h1 h2 => hp2 i h1 h2
  have hidseq2 : st2.tasks.map Task.task_id = st1.tasks.map Task.task_id := by
    refine List.ext_getElem
      (by rw [List.length_map, List.length_map, hlen2']) ?_
    intro i hi1 hi2
    rw [List.getElem_map, List.getElem_map]
    exact core_task_id
      (hp2' i (by simpa using hi2) (by simpa using hi1)).1
  have hcmd : resync_tasks_cmd envOk g tasks n =
      some { tasks := st2.tasks, nextRef := st2.nextRef,
             resynced_open_count := st1.count,
             resynced_inprogress_count := st2.count,
             errors := st2.errors, deletedNew := st2.deletedNew } := by
    simp only [resync_tasks_cmd, hc1, hc2]
  refine ⟨_, hcmd, herr2'.trans herr1', hlen2'.trans hlen1', ?_, hRB2, ?_⟩
  · unfold IdsNodup at hids ⊢
    rw [hidseq2, hidseq1]
    exact hids
  · intro i h1 h2
    have h2' : i < st2.tasks.length := h2
    have h1' : i < st1.tasks.length := by
      rw [hlen1']
      exact h1
    obtain ⟨hcoreA, hmatchA, hmissA⟩ := hp1' i h1 h1'
    obtain ⟨hcoreB, hmatchB, hmissB⟩ := hp2' i h1' h2'
    have hguildA : st1.tasks[i].guild_id = tasks[i].guild_id :=
      core_guild_id hcoreA
    have hstatusA : st1.tasks[i].status = tasks[i].status :=
      core_status hcoreA
    have hidA : st1.tasks[i].task_id = tasks[i].task_id :=
      core_task_id hcoreA
    refine ⟨hcoreB.trans hcoreA, ?_, ?_, ?_⟩
    · intro hg hst
      have hmem1 := id_in_snapshot tasks g "open" i h1 hg hst
      obtain ⟨hsA, hoA⟩ := hmatchA hmem1
      simp only [slotOldRef, otherRef] at hsA hoA
      have hnot2 : st1.tasks[i].task_id ∉
          (get_tasks_by_status st1.tasks g "in_progress").map Task.task_id := by
        refine id_not_in_snapshot st1.tasks g "in_progress" hids1 i h1' ?_
        rintro ⟨_, hq⟩
        rw [hstatusA, hst] at hq
        exact absurd hq (by decide)
      obtain ⟨hsB, hoB⟩ := hmissB hnot2
      simp only [slotOldRef, otherRef] at hsB hoB
      constructor
      · rw [hoB]
        exact hsA
      · rw [hsB]
        exact hoA
    · intro hg hst
      have hnot1 : tasks[i].task_id ∉
          (get_tasks_by_status tasks g "open").map Task.task_id := by
        refine id_not_in_snapshot tasks g "open" hids i h1 ?_
        rintro ⟨_, hq⟩
        rw [hst] at hq
        exact absurd hq (by decide)
      obtain ⟨hsA, hoA⟩ := hmissA hnot1
      simp only [slotOldRef, otherRef] at hsA hoA
      have hmem2 : st1.tasks[i].task_id ∈
          (get_tasks_by_status st1.tasks g "in_progress").map Task.task_id := by
        refine id_in_snapshot st1.tasks g "in_progress" i h1' ?_ ?_
        · rw [hguildA]
          exact hg
        · rw [hstatusA]
          exact hst
      obtain ⟨hsB, hoB⟩ := hmatchB hmem2
      simp only [slotOldRef, otherRef] at hsB hoB
      exact ⟨hsB, hoB⟩
    · intro hne
      push_neg at hne
      have hnot1 : tasks[i].task_id ∉
          (get_tasks_by_status tasks g "open").map Task.task_id := by
        refine id_not_in_snapshot tasks g "open" hids i h1 ?_
        rintro ⟨hgq, hq⟩
        exact (hne hgq).1 hq
      obtain ⟨hsA, hoA⟩ := hmissA hnot1
      simp only [slotOldRef, otherRef] at hsA hoA
      have hnot2 : st1.tasks[i].task_id ∉
          (get_tasks_by_status st1.tasks g "in_progress").map Task.task_id := by
        refine id_not_in_snapshot st1.tasks g "in_progress" hids1 i h1' ?_
        rintro ⟨hgq, hq⟩
        rw [hguildA] at hgq
        rw [hstatusA] at hq
        exact (hne hgq).2 hq
      obtain ⟨hsB, hoB⟩ := hmissB hnot2
      simp only [slotOldRef, otherRef] at hsB hoB
      exact ⟨hoB.trans hsA, hsB.trans hoA⟩

/-- C6: with the surface healthy and fresh message ids, running
`/resync_tasks` twice consecutively with no intervening external mutation
yields the same task-to-reference mapping the second time as the first
modulo reference identity (`refShape`: which row, and which reference
slots are populated), zero net change in the number of tasks and in every
task's status, and no errors in either run. -/
theorem resync_idempotent (g : Nat) (tasks : List Task) (n : Nat)
    (hids : IdsNodup tasks) (hfresh : RefsBelow tasks n) :
    ∃ o1 o2, resync_tasks_cmd envOk g tasks n = some o1 ∧
      resync_tasks_cmd envOk g o1.tasks o1.nextRef = some o2 ∧
      o2.tasks.map refShape = o1.tasks.map refShape ∧
      o2.tasks.length = o1.tasks.length ∧
      o2.tasks.map (fun t => (t.task_id, t.status)) =
        o1.tasks.map (fun t => (t.task_id, t.status)) ∧
      o1.errors = [] ∧ o2.errors = [] := by
  obtain ⟨o1, hr1, herr1, hlen1, hids1, hRB1, hp1⟩ :=
    resync_cmd_envOk g tasks n hids hfresh
  obtain ⟨o2, hr2, herr2, hlen2, hids2, hRB2, hp2⟩ :=
    resync_cmd_envOk g o1.tasks o1.nextRef hids1 hRB1
  refine ⟨o1, o2, hr1, hr2, ?_, hlen2, ?_, herr1, herr2⟩
  · refine List.ext_getElem
      (by rw [List.length_map, List.length_map, hlen2]) ?_
    intro i hi1 hi2
    have i2 : i < o2.tasks.length := by simpa using hi1
    have i1 : i < o1.tasks.length := by simpa using hi2
    have i0 : i < tasks.length := by
      rw [← hlen1]
      exact i1
    obtain ⟨hcore2, hopen2, hinp2, helse2⟩ := hp2 i i1 i2
    obtain ⟨hcore1, hopen1, hinp1, helse1⟩ := hp1 i i0 i1
    have hid2 : o2.tasks[i].task_id = o1.tasks[i].task_id :=
      core_task_id hcore2
    have hguild2 : o2.tasks[i].guild_id = o1.tasks[i].guild_id :=
      core_guild_id hcore2
    have hstatus2 : o2.tasks[i].status = o1.tasks[i].status :=
      core_status hcore2
    rw [List.getElem_map, List.getElem_map]
    by_cases hg : o1.tasks[i].guild_id = g
    · by_cases hso : o1.tasks[i].status = "open"
      · obtain ⟨hB1, hB2⟩ := hopen2 hg hso
        have hg1 : tasks[i].guild_id = g := by
          rw [← core_guild_id hcore1]
          exact hg
        have hs1 : tasks[i].status = "open" := by
          rw [← core_status hcore1]
          exact hso
        obtain ⟨hA1, hA2⟩ := hopen1 hg1 hs1
        simp only [refShape]
        rw [hid2, hguild2, hstatus2, hB1, hB2, hA1, hA2]
      · by_cases hsi : o1.tasks[i].status = "in_progress"
        · obtain ⟨hB1, hB2⟩ := hinp2 hg hsi
          have hg1 : tasks[i].guild_id = g := by
            rw [← core_guild_id hcore1]
            exact hg
          have hs1 : tasks[i].status = "in_progress" := by
            rw [← core_status hcore1]
            exact hsi
          obtain ⟨hA1, hA2⟩ := hinp1 hg1 hs1
          simp only [refShape]
          rw [hid2, hguild2, hstatus2, hB1, hB2, hA1, hA2]
        · obtain ⟨hB1, hB2⟩ := helse2 (fun h => h.2.elim hso hsi)
          simp only [refShape]
          rw [hid2, hguild2, hstatus2, hB1, hB2]
    · obtain ⟨hB1, hB2⟩ := helse2 (fun h => hg h.1)
      simp only [refShape]
      rw [hid2, hguild2, hstatus2, hB1, hB2]
  · refine List.ext_getElem
      (by rw [List.length_map, List.length_map, hlen2]) ?_
    intro i hi1 hi2
    have i2 : i < o2.tasks.length := by simpa using hi1
    have i1 : i < o1.tasks.length := by simpa using hi2
    obtain ⟨hcore2, _, _, _⟩ := hp2 i i1 i2
    rw [List.getElem_map, List.getElem_map, core_task_id hcore2,
      core_status hcore2]

/-- Witness for C6: the double resync on the concrete one-task workspace
runs to completion. -/
theorem resync_idempotent_witness :
    (resync_tasks_cmd envOk 1 [sampleOpen] 100).isSome = true := by
  obtain ⟨o1, o2, h1, h2, hrest⟩ :=
    resync_idempotent 1 [sampleOpen] 100 (by decide) (by decide)
  rw [h1]
  rfl

end TaskBot
